import Mathlib

/-!
Shallow embedding of the OTP registration/verification flow
(`backend/controllers/auth/mobileAuthController.js`), the time-windowed
alert schedulers (abandoned-cart, wishlist price-drop, back-in-stock),
and the expense-number generator, together with proofs of the spec
claims about them.

Machine conventions: timestamps are `Int` milliseconds (JS `Date`
arithmetic is millisecond-based), JS strings are `String`, JSON fields
that may be `null`/missing are `Option`, and JS falsy-coalescing
(`a || b`) is modelled explicitly where the code relies on it.
-/

/-- One entry of the `emailOTPs` JSON array: code, expiry, creation time. -/
structure OTPEntry where
  otp : String
  expiresAt : Int
  createdAt : Int
deriving Repr, DecidableEq

/-- The relevant fields of a `user`/`admin` row. -/
structure Account where
  email : String
  phoneNumber : String
  name : String
  password : Option String
  provider : String
  isVerified : Bool
  isActive : Bool
  emailOTPs : List OTPEntry
deriving Repr, DecidableEq

/-- Outcome of `verifyOTP` (the distinct response shapes of the handler). -/
inductive VerifyResult where
  | alreadyVerified
  | noOTP
  | expired
  | invalid
  | success
deriving Repr, DecidableEq

/-- An error response body: HTTP status, `error` message, `expired` flag. -/
structure ErrorPayload where
  status : Nat
  error : String
  expired : Bool
deriving Repr, DecidableEq

/-- The `expired: true` failure body of `verifyOTP`. -/
def expiredPayload : ErrorPayload :=
  { status := 400, error := "OTP has expired. Please request a new OTP.", expired := true }

/-- The invalid-OTP failure body of `verifyOTP`. -/
def invalidPayload : ErrorPayload :=
  { status := 400, error := "Invalid OTP. Please check and try again.", expired := false }

/-- Error payload attached to each failing `VerifyResult`, none otherwise. -/
def verifyPayload : VerifyResult → Option ErrorPayload
  | VerifyResult.expired => some expiredPayload
  | VerifyResult.invalid => some invalidPayload
  | _ => none

/-- The scan `for (let i = otpArray.length - 1; i >= 0; i--)` accepting the
first entry with `otpEntry.otp === otp && expiryDate > now`. -/
def findValidOTP (l : List OTPEntry) (otp : String) (now : Int) : Option OTPEntry :=
  l.reverse.find? (fun e => e.otp == otp && decide (now < e.expiresAt))

/-- `verifyOTP` of `mobileAuthController.js` as a state transformer on the
looked-up account: result paired with the updated account row. -/
def verifyOTP (acc : Account) (otp : String) (now : Int) : VerifyResult × Account :=
  if acc.isVerified then (VerifyResult.alreadyVerified, acc)
  else if acc.emailOTPs.isEmpty then (VerifyResult.noOTP, acc)
  else
    match findValidOTP acc.emailOTPs otp now with
    | some _ => (VerifyResult.success, { acc with isVerified := true, emailOTPs := [] })
    | none =>
      if acc.emailOTPs.any (fun e => e.otp == otp) then (VerifyResult.expired, acc)
      else (VerifyResult.invalid, acc)

/-- Outcome of `resendOTP` for an account that was found. -/
inductive ResendResult where
  | alreadyVerified
  | otpSent
deriving Repr, DecidableEq

/-- `resendOTP`: keep `existingOTPs.slice(-4)` and append the freshly
generated entry (the generated code/expiry is passed in as `entry`). -/
def resendOTP (acc : Account) (entry : OTPEntry) : ResendResult × Account :=
  if acc.isVerified then (ResendResult.alreadyVerified, acc)
  else (ResendResult.otpSent,
    { acc with emailOTPs := acc.emailOTPs.drop (acc.emailOTPs.length - 4) ++ [entry] })

/-- Iterated resends: fold the state through a list of generated entries. -/
def resendN (acc : Account) (es : List OTPEntry) : Account :=
  es.foldl (fun a e => (resendOTP a e).2) acc

/-! ### Login flow (`mobileLogin`) -/

/-- The two parallel account collections searched by the auth handlers. -/
structure LoginDB where
  users : List Account
  admins : List Account
deriving Repr, DecidableEq

/-- Lookup by email (`findUnique`) or phone number (`findFirst`):
first row whose field equals the identifier. -/
def findByField (isEmail : Bool) (ident : String) (l : List Account) : Option Account :=
  if isEmail then l.find? (fun a => a.email == ident)
  else l.find? (fun a => a.phoneNumber == ident)

/-- `mobileLogin` account lookup: user collection first, then admin;
the Bool of the result is true when the match was an admin row. -/
def findAccount (db : LoginDB) (isEmail : Bool) (ident : String) : Option (Account × Bool) :=
  match findByField isEmail ident db.users with
  | some u => some (u, false)
  | none =>
    match findByField isEmail ident db.admins with
    | some a => some (a, true)
    | none => none

/-- Shape of a login response: status, `success`, `error` message and the
two branch flags (`needsVerification`, `useGoogleAuth`). -/
structure LoginResponse where
  status : Nat
  success : Bool
  error : Option String
  needsVerification : Bool
  useGoogleAuth : Bool
deriving Repr, DecidableEq

/-- 401 body when no account matches the identifier. -/
def notFoundResponse : LoginResponse :=
  ⟨401, false, some "Invalid email/phone number or password", false, false⟩

/-- 401 body for a deactivated account. -/
def deactivatedResponse : LoginResponse :=
  ⟨401, false, some "Account is deactivated. Please contact administrator.", false, false⟩

/-- 401 body for an unverified account (carries `needsVerification`). -/
def unverifiedResponse : LoginResponse :=
  ⟨401, false, some "Please verify your email before signing in. Check your inbox for the OTP.",
    true, false⟩

/-- 401 body for a federated account with no local password. -/
def googleAuthResponse : LoginResponse :=
  ⟨401, false, some "Please sign in with Google", false, true⟩

/-- 401 body when the supplied password does not match the stored hash. -/
def wrongPasswordResponse : LoginResponse :=
  ⟨401, false, some "Invalid email or password", false, false⟩

/-- 200 login success body (token/user payload abstracted away). -/
def loginSuccessResponse : LoginResponse :=
  ⟨200, true, none, false, false⟩

/-- Generic 500 body from the top-level catch of `mobileLogin`
(reached when `bcrypt.compare` rejects on a null stored hash). -/
def loginServerErrorResponse : LoginResponse :=
  ⟨500, false, some "Login failed", false, false⟩

/-- JS falsiness of `user.password` (null/undefined or empty string). -/
def passwordFalsy : Option String → Bool
  | none => true
  | some s => s == ""

/-- `mobileLogin` response logic. `cmp` stands for `bcrypt.compare`
(plaintext against stored hash); `isEmail` is the outcome of the
email-shape regex test that selects the search field. -/
def mobileLogin (cmp : String → String → Bool) (db : LoginDB) (isEmail : Bool)
    (ident pw : String) : LoginResponse :=
  match findAccount db isEmail ident with
  | none => notFoundResponse
  | some (u, _) =>
    if u.isActive = false then deactivatedResponse
    else if u.isVerified = false then unverifiedResponse
    else if passwordFalsy u.password && u.provider == "google" then googleAuthResponse
    else
      match u.password with
      | none => loginServerErrorResponse
      | some h => if cmp pw h then loginSuccessResponse else wrongPasswordResponse

/-! ### Registration flow (`mobileRegister`) -/

/-- The whitespace class of JS regex `\s`. -/
def isJsWhitespace (c : Char) : Bool :=
  c = ' ' || c = '\t' || c = '\n' || c = '\r' || c.toNat = 0x0b || c.toNat = 0x0c ||
  c.toNat = 0xa0 || c.toNat = 0x1680 || (0x2000 ≤ c.toNat && c.toNat ≤ 0x200a) ||
  c.toNat = 0x2028 || c.toNat = 0x2029 || c.toNat = 0x202f || c.toNat = 0x205f ||
  c.toNat = 0x3000 || c.toNat = 0xfeff

/-- The character class `[^\s@]` of the registration email regex. -/
def emailChar (c : Char) : Bool :=
  !(isJsWhitespace c) && c != '@'

/-- The registration email regex `^[^\s@]+@[^\s@]+\.[^\s@]+$`: a non-empty
`[^\s@]` run, one `@`, then a `[^\s@]` run containing a dot that is neither
its first nor its last character. -/
def emailOk (s : String) : Bool :=
  let cs := s.toList
  let a := cs.takeWhile (fun c => c != '@')
  match cs.dropWhile (fun c => c != '@') with
  | '@' :: rest =>
    !a.isEmpty && a.all emailChar && rest.all emailChar &&
      ((rest.drop 1).dropLast.contains '.')
  | _ => false

/-- The registration phone regex `^\+?[\d\s-]{10,15}$`. -/
def phoneOk (s : String) : Bool :=
  let cs := s.toList
  let body := match cs with
    | '+' :: t => t
    | t => t
  decide (10 ≤ body.length) && decide (body.length ≤ 15) &&
    body.all (fun c => c.isDigit || isJsWhitespace c || c = '-')

/-- Outcome of `mobileRegister` (the distinct response shapes). -/
inductive RegResult where
  | missingFields
  | badEmail
  | badPhone
  | duplicate
  | created
deriving Repr, DecidableEq

/-- `mobileRegister`: validation, admin classification against the single
configured admin address, cross-collection email/phone duplicate checks,
then creation of the account with its single OTP entry. `hash` stands for
`bcrypt.hash`, `otpCode` for the freshly generated 6-digit code, `now`
for the current time in ms. -/
def mobileRegister (adminEmail : Option String) (hash : String → String)
    (otpCode : String) (now : Int) (db : LoginDB)
    (email password name phone : String) : RegResult × LoginDB :=
  if email == "" || password == "" || name == "" || phone == "" then
    (RegResult.missingFields, db)
  else if !(emailOk email) then (RegResult.badEmail, db)
  else if !(phoneOk phone) then (RegResult.badPhone, db)
  else
    let isAdmin := adminEmail == some email.toLower
    let emailDup := db.users.any (fun a => a.email == email) ||
      db.admins.any (fun a => a.email == email)
    if emailDup then (RegResult.duplicate, db)
    else
      let phoneDup := db.users.any (fun a => a.phoneNumber == phone) ||
        db.admins.any (fun a => a.phoneNumber == phone)
      if phoneDup then (RegResult.duplicate, db)
      else
        let newAcc : Account :=
          { email := email, phoneNumber := phone, name := name,
            password := some (hash password), provider := "local",
            isVerified := false, isActive := true,
            emailOTPs := [⟨otpCode, now + 10 * 60 * 1000, now⟩] }
        if isAdmin then (RegResult.created, { db with admins := db.admins ++ [newAcc] })
        else (RegResult.created, { db with users := db.users ++ [newAcc] })

/-! ### Abandoned-cart sweep (`checkAbandonedCarts`) -/

/-- The fields of a cart item used by the sweep. -/
structure CartItem where
  quantity : Int
  variantSellingPrice : Int
  variantMRP : Int
  createdAt : Int
deriving Repr, DecidableEq

/-- A customer row with its cart items, as loaded by the sweep query
(cart items ordered newest first). -/
structure CartCustomer where
  userId : String
  name : String
  cartItems : List CartItem
deriving Repr, DecidableEq

/-- An `onlineOrder` row as used by the recent-order check. -/
structure OnlineOrder where
  userId : String
  createdAt : Int
deriving Repr, DecidableEq

/-- The three reminder offsets of the sweep. -/
inductive ReminderType where
  | oneHour
  | twentyFourHours
  | threeDays
deriving Repr, DecidableEq, Fintype

/-- The sequential window checks of `checkAbandonedCarts`: each matching
window overwrites `reminderType`, so the last matching window wins. -/
def classifyCartActivity (now last : Int) : Option ReminderType :=
  let oneHourAgo := now - 60 * 60 * 1000
  let twentyFourHoursAgo := now - 24 * 60 * 60 * 1000
  let threeDaysAgo := now - 3 * 24 * 60 * 60 * 1000
  let r0 : Option ReminderType := none
  let r1 := if oneHourAgo - 10 * 60 * 1000 ≤ last ∧ last ≤ oneHourAgo + 10 * 60 * 1000 then
    some ReminderType.oneHour else r0
  let r2 := if twentyFourHoursAgo - 60 * 60 * 1000 ≤ last ∧
      last ≤ twentyFourHoursAgo + 60 * 60 * 1000 then
    some ReminderType.twentyFourHours else r1
  if threeDaysAgo - 2 * 60 * 60 * 1000 ≤ last ∧ last ≤ threeDaysAgo + 2 * 60 * 60 * 1000 then
    some ReminderType.threeDays else r2

/-- Offset and tolerance (both in ms) of each reminder window. -/
def reminderWindow : ReminderType → Int × Int
  | ReminderType.oneHour => (60 * 60 * 1000, 10 * 60 * 1000)
  | ReminderType.twentyFourHours => (24 * 60 * 60 * 1000, 60 * 60 * 1000)
  | ReminderType.threeDays => (3 * 24 * 60 * 60 * 1000, 2 * 60 * 60 * 1000)

/-- Membership of the last-activity timestamp in the tolerance window
centered on now minus the offset of `t`. -/
def inReminderWindow (now last : Int) (t : ReminderType) : Prop :=
  now - (reminderWindow t).1 - (reminderWindow t).2 ≤ last ∧
    last ≤ now - (reminderWindow t).1 + (reminderWindow t).2

instance (now last : Int) (t : ReminderType) : Decidable (inReminderWindow now last t) := by
  unfold inReminderWindow; infer_instance

/-- One reminder dispatched through `sendAbandonedCartReminder`. -/
structure ReminderSend where
  userId : String
  itemCount : Int
  cartValue : Int
  savings : Int
  reminderKind : ReminderType
deriving Repr, DecidableEq

/-- The per-customer body of the sweep loop: skip when an order exists at
or after the newest cart-item timestamp, else classify the timestamp and
emit at most one typed reminder with the aggregated cart totals. -/
def processCartCustomer (orders : List OnlineOrder) (now : Int) (c : CartCustomer) :
    Option ReminderSend :=
  match c.cartItems with
  | [] => none
  | first :: _ =>
    let lastActivity := first.createdAt
    if orders.any (fun o => o.userId == c.userId && decide (lastActivity ≤ o.createdAt)) then
      none
    else
      let itemCount := c.cartItems.foldl (fun s i => s + i.quantity) 0
      let cartValue := c.cartItems.foldl (fun s i => s + i.variantSellingPrice * i.quantity) 0
      let savings := c.cartItems.foldl
        (fun s i => s + (i.variantMRP - i.variantSellingPrice) * i.quantity) 0
      (classifyCartActivity now lastActivity).map
        (fun t => ⟨c.userId, itemCount, cartValue, savings, t⟩)

/-- The whole sweep: reminders emitted across the loaded customers. -/
def checkAbandonedCarts (orders : List OnlineOrder) (now : Int)
    (customers : List CartCustomer) : List ReminderSend :=
  customers.filterMap (processCartCustomer orders now)

/-! ### Wishlist price-drop sweep and back-in-stock check -/

/-- The fields of the `productData` JSON snapshot cached on a wishlist
item; every field may be missing. -/
structure ProductSnapshot where
  productName : Option String
  variantIndex : Option Nat
  variantSellingPrice : Option Int
  price : Option Int
  variantStockQuantity : Option Int
deriving Repr, DecidableEq

/-- A live product variant (only its selling price is consulted). -/
structure Variant where
  variantSellingPrice : Int
deriving Repr, DecidableEq

/-- A live `onlineProduct` row. -/
structure OnlineProduct where
  id : String
  variants : List Variant
deriving Repr, DecidableEq

/-- A wishlist item: product reference, joined customer presence and the
cached snapshot (null when absent). -/
structure WishlistItem where
  id : String
  productId : String
  hasCustomer : Bool
  productData : Option ProductSnapshot
deriving Repr, DecidableEq

/-- JS `a || b` on optional numbers: `a` unless it is missing or `0`. -/
def jsOrNum (a b : Option Int) : Option Int :=
  match a with
  | some v => if v = 0 then b else some v
  | none => b

/-- `productData.variantSellingPrice || productData.price`. -/
def storedPriceOf (pd : ProductSnapshot) : Option Int :=
  jsOrNum pd.variantSellingPrice pd.price

/-- JS `x < y` where `y` may be undefined (comparison with undefined is
false). -/
def ltOpt (x : Int) (y : Option Int) : Bool :=
  match y with
  | some v => decide (x < v)
  | none => false

/-- The snapshot update `...productData, variantSellingPrice: cur,
price: cur` written back after a successful price-drop alert. -/
def pdAfterDrop (pd : ProductSnapshot) (cur : Int) : ProductSnapshot :=
  { pd with variantSellingPrice := some cur, price := some cur }

/-- The per-item body of `checkWishlistPriceDrops`: skip on missing
snapshot/customer/product/variant, alert iff the live price is strictly
below the cached price, and on a successful send (`sendOk`) overwrite
both cached price fields with the live price. Returns
(alert fired, updated item). -/
def priceDropStep (catalog : List OnlineProduct) (sendOk : Bool) (item : WishlistItem) :
    Bool × WishlistItem :=
  match item.productData with
  | none => (false, item)
  | some pd =>
    if item.hasCustomer = false then (false, item)
    else
      match catalog.find? (fun p => p.id == item.productId) with
      | none => (false, item)
      | some p =>
        match p.variants.get? (pd.variantIndex.getD 0) with
        | none => (false, item)
        | some v =>
          if ltOpt v.variantSellingPrice (storedPriceOf pd) then
            if sendOk then
              (true, { item with productData := some (pdAfterDrop pd v.variantSellingPrice) })
            else (true, item)
          else (false, item)

/-- The snapshot update `...productData, variantStockQuantity: newQty`
written back after a successful back-in-stock alert. -/
def pdAfterStock (pd : ProductSnapshot) (q : Int) : ProductSnapshot :=
  { pd with variantStockQuantity := some q }

/-- The per-item body of `checkWishlistBackInStock` for the update event
(variant index `variantIdx`, new quantity `newQty`): skip on missing
snapshot/customer or a different cached variant index, alert iff the
cached stock (`|| 0`) is exactly zero and the new quantity is positive,
and on a successful send overwrite the cached stock quantity. -/
def backInStockStep (variantIdx : Nat) (newQty : Int) (sendOk : Bool)
    (item : WishlistItem) : Bool × WishlistItem :=
  match item.productData with
  | none => (false, item)
  | some pd =>
    if item.hasCustomer = false then (false, item)
    else if pd.variantIndex.getD 0 ≠ variantIdx then (false, item)
    else if pd.variantStockQuantity.getD 0 = 0 ∧ 0 < newQty then
      if sendOk then
        (true, { item with productData := some (pdAfterStock pd newQty) })
      else (true, item)
    else (false, item)

/-! ### Expense numbering (`generateExpenseNumber`) -/

/-- An expense row: its human-readable number and creation time. -/
structure Expense where
  expenseNumber : String
  createdAt : Int
deriving Repr, DecidableEq

/-- The Prisma `startsWith` string filter. -/
def jsStartsWith (s pfx : String) : Bool :=
  List.isPrefixOf pfx.toList s.toList

/-- `findFirst` with `startsWith` filter ordered by `createdAt` desc:
the first row attaining the maximal creation time among those whose
number starts with `pfx`. -/
def latestExpenseFor (expenses : List Expense) (pfx : String) : Option Expense :=
  (expenses.filter (fun e => jsStartsWith e.expenseNumber pfx)).foldl
    (fun acc e =>
      match acc with
      | none => some e
      | some a => if a.createdAt < e.createdAt then some e else acc) none

/-- Splitting a character list at every occurrence of `sep`, keeping
empty segments, as JS `split` does. -/
def splitOnChar (sep : Char) (cs : List Char) : List (List Char) :=
  cs.foldr (fun c r =>
    match r with
    | [] => [[]]
    | h :: t => if c = sep then [] :: h :: t else (c :: h) :: t) [[]]

/-- JS `s.split(sep)` for a one-character separator. -/
def jsSplit (s : String) (sep : Char) : List String :=
  (splitOnChar sep s.toList).map String.mk

/-- `parseInt(s, 10)` on the digit-run suffixes produced by the expense
numbering (take the leading digit run; NaN when there is none). -/
def parseIntJS (s : String) : Option Nat :=
  let ds := s.toList.takeWhile Char.isDigit
  if ds.isEmpty then none
  else some (ds.foldl (fun n c => 10 * n + (c.toNat - '0'.toNat)) 0)

/-- `String.prototype.padStart(3, "0")` on a decimal rendering. -/
def pad3 (n : Nat) : String :=
  let s := toString n
  if s.length < 3 then String.mk (List.replicate (3 - s.length) '0') ++ s else s

/-- `generateExpenseNumber`: read the latest expense of the current year,
split its number on `-`, parse the third part and increment; `EXP-Y-001`
when the year has no expense yet. A malformed stored number propagates
`NaN` exactly as in JS. -/
def generateExpenseNumber (expenses : List Expense) (currentYear : Nat) : String :=
  let pfx := "EXP-" ++ toString currentYear ++ "-"
  match latestExpenseFor expenses pfx with
  | none => pfx ++ pad3 1
  | some e =>
    match parseIntJS ((jsSplit e.expenseNumber '-').getD 2 "") with
    | some n => pfx ++ pad3 (n + 1)
    | none => pfx ++ "NaN"

/-! ### Concrete fixtures used by the witness theorems -/

/-- An unverified account with an expired entry and a live entry. -/
def accC1 : Account :=
  { email := "user1@shop.example", phoneNumber := "1112223334", name := "UserOne",
    password := some "hash1", provider := "local", isVerified := false, isActive := true,
    emailOTPs := [⟨"111111", 400, 0⟩, ⟨"222222", 900, 50⟩] }

/-- An unverified account with two stored OTP entries. -/
def accC3 : Account :=
  { email := "user3@shop.example", phoneNumber := "2223334445", name := "UserThree",
    password := some "hash3", provider := "local", isVerified := false, isActive := true,
    emailOTPs := [⟨"300001", 10, 0⟩, ⟨"300002", 20, 5⟩] }

/-- The verified twin of `accC3`. -/
def accC3v : Account := { accC3 with isVerified := true }

/-- Seven freshly generated entries fed to iterated resends. -/
def esC3 : List OTPEntry :=
  [⟨"310001", 110, 100⟩, ⟨"310002", 120, 105⟩, ⟨"310003", 130, 110⟩,
   ⟨"310004", 140, 115⟩, ⟨"310005", 150, 120⟩, ⟨"310006", 160, 125⟩,
   ⟨"310007", 170, 130⟩]

/-- An active, verified account with a local password hash. -/
def uC4 : Account :=
  { email := "present@shop.example", phoneNumber := "3334445556", name := "Present",
    password := some "storedhash", provider := "local", isVerified := true,
    isActive := true, emailOTPs := [] }

/-- A store holding only `uC4`. -/
def dbC4 : LoginDB := { users := [uC4], admins := [] }

/-- A `bcrypt.compare` stand-in that rejects every pair. -/
def cmpNever : String → String → Bool := fun _ _ => false

/-- An existing account whose phone number collides with a new signup. -/
def uC9 : Account :=
  { email := "old@shop.example", phoneNumber := "1234567890", name := "Old",
    password := some "oldhash", provider := "local", isVerified := true,
    isActive := true, emailOTPs := [] }

/-- A store holding only `uC9`. -/
def dbC9 : LoginDB := { users := [uC9], admins := [] }

/-- A customer whose single cart item was added exactly one hour before
the sweep time `403200000`. -/
def custC5 : CartCustomer :=
  { userId := "u5", name := "CartUser", cartItems := [⟨2, 50, 70, 399600000⟩] }

/-- An order by the same customer placed after the cart activity. -/
def orderC5 : OnlineOrder := ⟨"u5", 399700000⟩

/-- A cached snapshot with price 100 for variant 0. -/
def pdC6 : ProductSnapshot :=
  { productName := some "Prod6", variantIndex := some 0,
    variantSellingPrice := some 100, price := some 100,
    variantStockQuantity := some 4 }

/-- A wishlist item caching price 100 for variant 0 of product `p6`. -/
def itemC6 : WishlistItem :=
  { id := "w6", productId := "p6", hasCustomer := true, productData := some pdC6 }

/-- A live catalog where variant 0 of `p6` now sells at 80. -/
def catalogC6 : List OnlineProduct := [⟨"p6", [⟨80⟩]⟩]

/-- A cached snapshot with stock 0 for variant index 1. -/
def pdC7 : ProductSnapshot :=
  { productName := some "Prod7", variantIndex := some 1,
    variantSellingPrice := some 60, price := some 60,
    variantStockQuantity := some 0 }

/-- A wishlist item caching stock 0 for variant index 1 of `p7`. -/
def itemC7 : WishlistItem :=
  { id := "w7", productId := "p7", hasCustomer := true, productData := some pdC7 }

/-- Like `pdC7` but with cached stock 3. -/
def pdC7b : ProductSnapshot := { pdC7 with variantStockQuantity := some 3 }

/-- Like `itemC7` but with cached stock 3. -/
def itemC7b : WishlistItem :=
  { id := "w7b", productId := "p7", hasCustomer := true, productData := some pdC7b }

/-- A cached snapshot with no stock-quantity field at all. -/
def pdC10 : ProductSnapshot :=
  { productName := none, variantIndex := some 2,
    variantSellingPrice := some 10, price := none,
    variantStockQuantity := none }

/-- A wishlist item whose cached snapshot has no stock-quantity field. -/
def itemC10 : WishlistItem :=
  { id := "w10", productId := "p10", hasCustomer := true, productData := some pdC10 }

/-- An expense store with two 2025 expenses and one 2024 expense; the
most recently created 2025 number is `EXP-2025-007`. -/
def expensesC8 : List Expense :=
  [⟨"EXP-2025-007", 500⟩, ⟨"EXP-2025-002", 200⟩, ⟨"EXP-2024-099", 100⟩]

/-! ### Claims about the OTP verification flow -/

/-- C1: on an unverified account with a non-empty OTP list, `verifyOTP`
succeeds exactly when some entry matches the code with an expiry strictly
after now; otherwise it returns the expired result exactly when the code
matches some (necessarily expired) entry, and the invalid result exactly
when no entry carries the code; the expired payload carries
`expired: true` and the two failure payloads differ. -/
theorem claim_C1_verify_trichotomy (acc : Account) (otp : String) (now : Int)
    (hver : acc.isVerified = false) (hne : acc.emailOTPs ≠ []) :
    ((verifyOTP acc otp now).1 = VerifyResult.success ↔
      ∃ e ∈ acc.emailOTPs, e.otp = otp ∧ now < e.expiresAt)
    ∧ ((verifyOTP acc otp now).1 = VerifyResult.expired ↔
      (¬ ∃ e ∈ acc.emailOTPs, e.otp = otp ∧ now < e.expiresAt) ∧
        ∃ e ∈ acc.emailOTPs, e.otp = otp)
    ∧ ((verifyOTP acc otp now).1 = VerifyResult.invalid ↔
      ¬ ∃ e ∈ acc.emailOTPs, e.otp = otp)
    ∧ verifyPayload VerifyResult.expired = some expiredPayload
    ∧ expiredPayload.expired = true
    ∧ verifyPayload VerifyResult.expired ≠ verifyPayload VerifyResult.invalid := by
  have hemp : acc.emailOTPs.isEmpty = false := by
    simpa [List.isEmpty_iff] using hne
  have main :
      ((verifyOTP acc otp now).1 = VerifyResult.success ↔
        ∃ e ∈ acc.emailOTPs, e.otp = otp ∧ now < e.expiresAt)
      ∧ ((verifyOTP acc otp now).1 = VerifyResult.expired ↔
        (¬ ∃ e ∈ acc.emailOTPs, e.otp = otp ∧ now < e.expiresAt) ∧
          ∃ e ∈ acc.emailOTPs, e.otp = otp)
      ∧ ((verifyOTP acc otp now).1 = VerifyResult.invalid ↔
        ¬ ∃ e ∈ acc.emailOTPs, e.otp = otp) := by
    unfold verifyOTP
    rw [hver, hemp]
    simp only [Bool.false_eq_true, if_false]
    rcases hf : findValidOTP acc.emailOTPs otp now with _ | e
    · have hnoP : ¬ ∃ e ∈ acc.emailOTPs, e.otp = otp ∧ now < e.expiresAt := by
        rw [findValidOTP, List.find?_eq_none] at hf
        rintro ⟨e, he, h1, h2⟩
        exact hf e (List.mem_reverse.mpr he) (by simp [h1, h2])
      rcases ha : acc.emailOTPs.any (fun e => e.otp == otp) with _ | _
      · have hnoQ : ¬ ∃ e ∈ acc.emailOTPs, e.otp = otp := by
          intro ⟨e, he, h1⟩
          have : acc.emailOTPs.any (fun e => e.otp == otp) = true :=
            List.any_eq_true.mpr ⟨e, he, by simp [h1]⟩
          simp [ha] at this
        refine ⟨?_, ?_, ?_⟩ <;> simp [hnoP, hnoQ]
      · have hQ : ∃ e ∈ acc.emailOTPs, e.otp = otp := by
          rcases List.any_eq_true.mp ha with ⟨e, he, h1⟩
          exact ⟨e, he, by simpa using h1⟩
        refine ⟨?_, ?_, ?_⟩ <;> simp [hnoP, hQ]
    · have hP : ∃ e ∈ acc.emailOTPs, e.otp = otp ∧ now < e.expiresAt := by
        have hmem := List.mem_of_find?_eq_some hf
        have hpred := List.find?_some hf
        refine ⟨e, List.mem_reverse.mp hmem, ?_⟩
        simpa using hpred
      have hQ : ∃ e ∈ acc.emailOTPs, e.otp = otp := by
        rcases hP with ⟨e, he, h1, _⟩; exact ⟨e, he, h1⟩
      refine ⟨?_, ?_, ?_⟩ <;> simp [hP, hQ]
  exact ⟨main.1, main.2.1, main.2.2, rfl, rfl, by decide⟩

/-- C1 witness: on `accC1` at time 500, the live code succeeds, the
expired code yields the expired result, an unknown code the invalid one. -/
theorem claim_C1_witness :
    accC1.isVerified = false ∧ accC1.emailOTPs ≠ [] ∧
    (verifyOTP accC1 "222222" 500).1 = VerifyResult.success ∧
    (verifyOTP accC1 "111111" 500).1 = VerifyResult.expired ∧
    (verifyOTP accC1 "999999" 500).1 = VerifyResult.invalid :=
  ⟨by decide, by decide,
    (claim_C1_verify_trichotomy accC1 "222222" 500 (by decide) (by decide)).1.mpr
      (by decide),
    (claim_C1_verify_trichotomy accC1 "111111" 500 (by decide) (by decide)).2.1.mpr
      (by decide),
    (claim_C1_verify_trichotomy accC1 "999999" 500 (by decide) (by decide)).2.2.1.mpr
      (by decide)⟩

/-- C2: when `verifyOTP` succeeds, the account comes out verified with
its OTP list cleared, and every later `verifyOTP` call on that account
returns the idempotent already-verified response with the state
unchanged. -/
theorem claim_C2_verify_idempotent (acc : Account) (otp : String) (now : Int)
    (h : (verifyOTP acc otp now).1 = VerifyResult.success) :
    (verifyOTP acc otp now).2.isVerified = true
    ∧ (verifyOTP acc otp now).2.emailOTPs = []
    ∧ ∀ otp2 now2, verifyOTP ((verifyOTP acc otp now).2) otp2 now2 =
        (VerifyResult.alreadyVerified, (verifyOTP acc otp now).2) := by
  by_cases hv : acc.isVerified
  · simp [verifyOTP, hv] at h
  · by_cases hemp : acc.emailOTPs.isEmpty
    · simp [verifyOTP, hv, hemp] at h
    · rcases hf : findValidOTP acc.emailOTPs otp now with _ | e
      · by_cases ha : acc.emailOTPs.any (fun e => e.otp == otp) <;>
          simp [verifyOTP, hv, hemp, hf, ha] at h
      · have key : verifyOTP acc otp now =
            (VerifyResult.success, { acc with isVerified := true, emailOTPs := [] }) := by
          simp [verifyOTP, hv, hemp, hf]
        rw [key]
        exact ⟨rfl, rfl, fun otp2 now2 => by simp [verifyOTP]⟩

/-- C2 witness: verifying `accC1` with its live code clears the list and
flips the flag, and re-verifying with the same code is idempotent. -/
theorem claim_C2_witness :
    (verifyOTP accC1 "222222" 500).1 = VerifyResult.success ∧
    (verifyOTP accC1 "222222" 500).2.isVerified = true ∧
    (verifyOTP accC1 "222222" 500).2.emailOTPs = [] ∧
    verifyOTP ((verifyOTP accC1 "222222" 500).2) "222222" 600 =
      (VerifyResult.alreadyVerified, (verifyOTP accC1 "222222" 500).2) :=
  ⟨by decide,
    (claim_C2_verify_idempotent accC1 "222222" 500 (by decide)).1,
    (claim_C2_verify_idempotent accC1 "222222" 500 (by decide)).2.1,
    (claim_C2_verify_idempotent accC1 "222222" 500 (by decide)).2.2 "222222" 600⟩

/-- A resend never changes the verification flag. -/
lemma resendOTP_isVerified (a : Account) (e : OTPEntry) :
    ((resendOTP a e).2).isVerified = a.isVerified := by
  unfold resendOTP; split <;> rfl

/-- Iterated resends never change the verification flag. -/
lemma resendN_isVerified (es : List OTPEntry) (a : Account) :
    (resendN a es).isVerified = a.isVerified := by
  induction es generalizing a with
  | nil => rfl
  | cons e es ih =>
    show (resendN ((resendOTP a e).2) es).isVerified = a.isVerified
    rw [ih, resendOTP_isVerified]

/-- A resend keeps the 5-entry bound. -/
lemma resendOTP_le5 (a : Account) (e : OTPEntry) (h : a.emailOTPs.length ≤ 5) :
    ((resendOTP a e).2).emailOTPs.length ≤ 5 := by
  unfold resendOTP; split
  · exact h
  · simp only [List.length_append, List.length_drop, List.length_cons, List.length_nil]
    omega

/-- Iterated resends keep the 5-entry bound. -/
lemma resendN_le5 (es : List OTPEntry) (a : Account) (h : a.emailOTPs.length ≤ 5) :
    (resendN a es).emailOTPs.length ≤ 5 := by
  induction es generalizing a with
  | nil => exact h
  | cons e es ih => exact ih _ (resendOTP_le5 a e h)

/-- After resending on an unverified account, the newest stored entry is
the most recently generated one. -/
lemma resendN_concat_last (a : Account) (pre : List OTPEntry) (e : OTPEntry)
    (hv : a.isVerified = false) :
    (resendN a (pre ++ [e])).emailOTPs.getLast? = some e := by
  rw [resendN, List.foldl_append]
  show ((resendOTP ((resendN a pre)) e).2).emailOTPs.getLast? = some e
  have hv2 : (resendN a pre).isVerified = false := by rw [resendN_isVerified]; exact hv
  unfold resendOTP
  rw [hv2]
  simp [List.getLast?_concat]

/-- C3: starting from at most 5 stored entries, any number of resends
leaves at most 5; after a final resend on an unverified account the last
stored entry is the freshly generated one; each single resend keeps only
the last 4 prior entries before appending; and a resend on a verified
account reports already-verified and leaves the account unchanged. -/
theorem claim_C3_resend_cap (acc : Account) (es : List OTPEntry)
    (hlen : acc.emailOTPs.length ≤ 5) :
    (resendN acc es).emailOTPs.length ≤ 5
    ∧ (acc.isVerified = false → ∀ pre e, es = pre ++ [e] →
        (resendN acc es).emailOTPs.getLast? = some e)
    ∧ (acc.isVerified = false → ∀ e, resendOTP acc e = (ResendResult.otpSent,
        { acc with emailOTPs := acc.emailOTPs.drop (acc.emailOTPs.length - 4) ++ [e] }))
    ∧ (acc.isVerified = true → ∀ e, resendOTP acc e = (ResendResult.alreadyVerified, acc)) := by
  refine ⟨resendN_le5 es acc hlen, ?_, ?_, ?_⟩
  · rintro hv pre e rfl
    exact resendN_concat_last acc pre e hv
  · intro hv e
    simp [resendOTP, hv]
  · intro hv e
    simp [resendOTP, hv]

/-- C3 witness: seven resends on `accC3` leave exactly 5 entries ending
in the last generated code, and a resend on the verified twin `accC3v`
is a no-op reporting already-verified. -/
theorem claim_C3_witness :
    accC3.emailOTPs.length ≤ 5 ∧
    (resendN accC3 esC3).emailOTPs.length ≤ 5 ∧
    (resendN accC3 esC3).emailOTPs.getLast? = some ⟨"310007", 170, 130⟩ ∧
    resendOTP accC3 ⟨"310001", 110, 100⟩ = (ResendResult.otpSent,
      { accC3 with emailOTPs :=
          accC3.emailOTPs.drop (accC3.emailOTPs.length - 4) ++ [⟨"310001", 110, 100⟩] }) ∧
    resendOTP accC3v ⟨"310001", 110, 100⟩ = (ResendResult.alreadyVerified, accC3v) :=
  ⟨by decide,
    (claim_C3_resend_cap accC3 esC3 (by decide)).1,
    (claim_C3_resend_cap accC3 esC3 (by decide)).2.1 (by decide)
      [⟨"310001", 110, 100⟩, ⟨"310002", 120, 105⟩, ⟨"310003", 130, 110⟩,
       ⟨"310004", 140, 115⟩, ⟨"310005", 150, 120⟩, ⟨"310006", 160, 125⟩]
      ⟨"310007", 170, 130⟩ (by decide),
    (claim_C3_resend_cap accC3 esC3 (by decide)).2.2.1 (by decide) ⟨"310001", 110, 100⟩,
    (claim_C3_resend_cap accC3v [] (by decide)).2.2.2 (by decide) ⟨"310001", 110, 100⟩⟩

/-! ### Claims about the login flow -/

/-- C4 counterexample: with the concrete store `dbC4`, the not-found
error message and the wrong-password error message are NOT identical
("Invalid email/phone number or password" vs "Invalid email or
password"), although both cases satisfy the claim's conditions (no match
vs active, verified, local-password account with a rejected password). -/
theorem claim_C4_counterexample :
    findAccount dbC4 true "absent@shop.example" = none
    ∧ findAccount dbC4 true "present@shop.example" = some (uC4, false)
    ∧ uC4.isActive = true ∧ uC4.isVerified = true ∧ uC4.password = some "storedhash"
    ∧ mobileLogin cmpNever dbC4 true "absent@shop.example" "pw" = notFoundResponse
    ∧ mobileLogin cmpNever dbC4 true "present@shop.example" "pw" = wrongPasswordResponse
    ∧ (mobileLogin cmpNever dbC4 true "absent@shop.example" "pw").error ≠
        (mobileLogin cmpNever dbC4 true "present@shop.example" "pw").error := by
  refine ⟨by decide, by decide, by decide, by decide, by decide, by decide, by decide,
    by decide⟩

/-- C4 amended: the not-found and wrong-password branches both return a
generic 401 invalid-credential body with no distinguishing flag, but
their message strings differ slightly ("Invalid email/phone number or
password" vs "Invalid email or password"). -/
theorem claim_C4_amended_generic_messages (cmp : String → String → Bool) (db : LoginDB)
    (isEmail : Bool) (ident ident2 pw pw2 : String) (u : Account) (adminRow : Bool)
    (h : String)
    (h1 : findAccount db isEmail ident = none)
    (h2 : findAccount db isEmail ident2 = some (u, adminRow))
    (hact : u.isActive = true) (hverif : u.isVerified = true)
    (hpw : u.password = some h) (hne : h ≠ "")
    (hcmp : cmp pw2 h = false) :
    mobileLogin cmp db isEmail ident pw = notFoundResponse
    ∧ mobileLogin cmp db isEmail ident2 pw2 = wrongPasswordResponse
    ∧ notFoundResponse.status = wrongPasswordResponse.status
    ∧ notFoundResponse.success = wrongPasswordResponse.success
    ∧ notFoundResponse.needsVerification = wrongPasswordResponse.needsVerification
    ∧ notFoundResponse.useGoogleAuth = wrongPasswordResponse.useGoogleAuth
    ∧ notFoundResponse.error ≠ wrongPasswordResponse.error := by
  have hfalsy : passwordFalsy (some h) = false := by
    simpa [passwordFalsy] using hne
  refine ⟨?_, ?_, rfl, rfl, rfl, rfl, by decide⟩
  · simp [mobileLogin, h1]
  · simp [mobileLogin, h2, hact, hverif, hfalsy, hpw, hcmp]

/-- C4 amended witness: the two branches on the concrete store `dbC4`. -/
theorem claim_C4_amended_witness :
    findAccount dbC4 true "absent@shop.example" = none
    ∧ findAccount dbC4 true "present@shop.example" = some (uC4, false)
    ∧ mobileLogin cmpNever dbC4 true "absent@shop.example" "pw" = notFoundResponse
    ∧ mobileLogin cmpNever dbC4 true "present@shop.example" "pw" = wrongPasswordResponse
    ∧ notFoundResponse.error ≠ wrongPasswordResponse.error :=
  ⟨by decide, by decide,
    (claim_C4_amended_generic_messages cmpNever dbC4 true "absent@shop.example"
      "present@shop.example" "pw" "pw" uC4 false "storedhash" (by decide) (by decide)
      (by decide) (by decide) (by decide) (by decide) (by decide)).1,
    (claim_C4_amended_generic_messages cmpNever dbC4 true "absent@shop.example"
      "present@shop.example" "pw" "pw" uC4 false "storedhash" (by decide) (by decide)
      (by decide) (by decide) (by decide) (by decide) (by decide)).2.1,
    (claim_C4_amended_generic_messages cmpNever dbC4 true "absent@shop.example"
      "present@shop.example" "pw" "pw" uC4 false "storedhash" (by decide) (by decide)
      (by decide) (by decide) (by decide) (by decide) (by decide)).2.2.2.2.2.2⟩

/-! ### Claim about registration duplicate rejection -/

/-- C9: a validation-passing registration whose email or phone number
collides with any account in either collection is rejected with the
duplicate error, and the two collections are left unchanged. -/
theorem claim_C9_duplicate_rejection (adminEmail : Option String) (hash : String → String)
    (otpCode : String) (now : Int) (db : LoginDB) (email password name phone : String)
    (h1 : email ≠ "") (h2 : password ≠ "") (h3 : name ≠ "") (h4 : phone ≠ "")
    (hem : emailOk email = true) (hph : phoneOk phone = true)
    (hdup : ∃ a ∈ db.users ++ db.admins, a.email = email ∨ a.phoneNumber = phone) :
    mobileRegister adminEmail hash otpCode now db email password name phone =
      (RegResult.duplicate, db) := by
  unfold mobileRegister
  simp only [hem, hph, Bool.not_true, Bool.false_eq_true, if_false]
  have hfields : (email == "" || password == "" || name == "" || phone == "") = false := by
    simp [h1, h2, h3, h4]
  rw [hfields]
  simp only [Bool.false_eq_true, if_false]
  by_cases hE : (db.users.any (fun a => a.email == email) ||
      db.admins.any (fun a => a.email == email)) = true
  · rw [if_pos hE]
  · rw [if_neg hE]
    have hnoEmail : ∀ a ∈ db.users ++ db.admins, a.email ≠ email := by
      intro a ha he
      apply hE
      simp only [Bool.or_eq_true]
      rcases List.mem_append.mp ha with hu | hadm
      · exact Or.inl (List.any_eq_true.mpr ⟨a, hu, by simp [he]⟩)
      · exact Or.inr (List.any_eq_true.mpr ⟨a, hadm, by simp [he]⟩)
    have hP : (db.users.any (fun a => a.phoneNumber == phone) ||
        db.admins.any (fun a => a.phoneNumber == phone)) = true := by
      rcases hdup with ⟨a, ha, hcase⟩
      have hp : a.phoneNumber = phone := hcase.resolve_left (hnoEmail a ha)
      simp only [Bool.or_eq_true]
      rcases List.mem_append.mp ha with hu | hadm
      · exact Or.inl (List.any_eq_true.mpr ⟨a, hu, by simp [hp]⟩)
      · exact Or.inr (List.any_eq_true.mpr ⟨a, hadm, by simp [hp]⟩)
    rw [if_pos hP]

/-- C9 witness: registering a fresh email with `uC9`'s phone number on
the concrete store `dbC9` is rejected as a duplicate without a write. -/
theorem claim_C9_witness :
    emailOk "new@shop.example" = true ∧ phoneOk "1234567890" = true ∧
    (∃ a ∈ dbC9.users ++ dbC9.admins,
      a.email = "new@shop.example" ∨ a.phoneNumber = "1234567890") ∧
    mobileRegister (some "admin@shop.example") (fun _ => "newhash") "123456" 1000 dbC9
      "new@shop.example" "pw123" "NewUser" "1234567890" = (RegResult.duplicate, dbC9) :=
  ⟨by decide, by decide, by decide,
    claim_C9_duplicate_rejection (some "admin@shop.example") (fun _ => "newhash")
      "123456" 1000 dbC9 "new@shop.example" "pw123" "NewUser" "1234567890"
      (by decide) (by decide) (by decide) (by decide) (by decide) (by decide) (by decide)⟩

/-! ### Claim about the abandoned-cart sweep -/

/-- When the timestamp lies in window `t` and in no other window, the
sequential overwrite logic of the sweep settles on exactly `t`. -/
lemma classify_of_unique (now last : Int) (t : ReminderType)
    (h : inReminderWindow now last t)
    (hu : ∀ t2, t2 ≠ t → ¬ inReminderWindow now last t2) :
    classifyCartActivity now last = some t := by
  have h1 := fun hne => hu ReminderType.oneHour hne
  have h24 := fun hne => hu ReminderType.twentyFourHours hne
  have h3d := fun hne => hu ReminderType.threeDays hne
  cases t with
  | oneHour =>
    have ha := h24 (by decide)
    have hb := h3d (by decide)
    unfold inReminderWindow reminderWindow at h ha hb
    simp only at h ha hb
    unfold classifyCartActivity
    rw [if_neg (by omega), if_neg (by omega), if_pos (by omega)]
  | twentyFourHours =>
    have ha := h1 (by decide)
    have hb := h3d (by decide)
    unfold inReminderWindow reminderWindow at h ha hb
    simp only at h ha hb
    unfold classifyCartActivity
    rw [if_neg (by omega), if_pos (by omega)]
  | threeDays =>
    unfold inReminderWindow reminderWindow at h
    simp only at h
    unfold classifyCartActivity
    rw [if_pos (by omega)]

/-- C5: for a customer with at least one cart item, an order placed at or
after the newest cart-item timestamp suppresses every reminder; with no
such order, a timestamp lying in exactly one of the three tolerance
windows produces exactly one reminder, of the corresponding type. -/
theorem claim_C5_abandoned_cart_windows (orders : List OnlineOrder) (now : Int)
    (c : CartCustomer) (first : CartItem) (rest : List CartItem)
    (hitems : c.cartItems = first :: rest) :
    ((∃ o ∈ orders, o.userId = c.userId ∧ first.createdAt ≤ o.createdAt) →
      checkAbandonedCarts orders now [c] = [])
    ∧ ((¬ ∃ o ∈ orders, o.userId = c.userId ∧ first.createdAt ≤ o.createdAt) →
        ∀ t, inReminderWindow now first.createdAt t →
          (∀ t2, t2 ≠ t → ¬ inReminderWindow now first.createdAt t2) →
          ∃ s, checkAbandonedCarts orders now [c] = [s] ∧ s.reminderKind = t) := by
  constructor
  · intro hO
    have hany : orders.any
        (fun o => o.userId == c.userId && decide (first.createdAt ≤ o.createdAt)) = true := by
      rcases hO with ⟨o, ho, h1, h2⟩
      exact List.any_eq_true.mpr ⟨o, ho, by simp [h1, h2]⟩
    have hproc : processCartCustomer orders now c = none := by
      unfold processCartCustomer
      rw [hitems]
      simp [hany]
    simp [checkAbandonedCarts, hproc]
  · intro hno t hw hu
    have hany : orders.any
        (fun o => o.userId == c.userId && decide (first.createdAt ≤ o.createdAt)) = false := by
      rcases hA : orders.any
        (fun o => o.userId == c.userId && decide (first.createdAt ≤ o.createdAt)) with _ | _
      · rfl
      · exfalso
        apply hno
        rcases List.any_eq_true.mp hA with ⟨o, ho, hp⟩
        have hp2 : o.userId = c.userId ∧ first.createdAt ≤ o.createdAt := by simpa using hp
        exact ⟨o, ho, hp2.1, hp2.2⟩
    have hcl := classify_of_unique now first.createdAt t hw hu
    have hproc : processCartCustomer orders now c = some
        ⟨c.userId,
          c.cartItems.foldl (fun s i => s + i.quantity) 0,
          c.cartItems.foldl (fun s i => s + i.variantSellingPrice * i.quantity) 0,
          c.cartItems.foldl
            (fun s i => s + (i.variantMRP - i.variantSellingPrice) * i.quantity) 0,
          t⟩ := by
      unfold processCartCustomer
      rw [hitems]
      simp [hany, hcl]
    refine ⟨⟨c.userId,
      c.cartItems.foldl (fun s i => s + i.quantity) 0,
      c.cartItems.foldl (fun s i => s + i.variantSellingPrice * i.quantity) 0,
      c.cartItems.foldl (fun s i => s + (i.variantMRP - i.variantSellingPrice) * i.quantity) 0,
      t⟩, ?_, rfl⟩
    simp [checkAbandonedCarts, hproc]

/-- C5 witness: a cart last touched exactly one hour before the sweep
yields one `1hour` reminder with no orders around, and no reminder when
an order postdates the cart activity. -/
theorem claim_C5_witness :
    custC5.cartItems = [⟨2, 50, 70, 399600000⟩] ∧
    inReminderWindow 403200000 399600000 ReminderType.oneHour ∧
    (∃ s, checkAbandonedCarts [] 403200000 [custC5] = [s] ∧
      s.reminderKind = ReminderType.oneHour) ∧
    checkAbandonedCarts [orderC5] 403200000 [custC5] = [] :=
  ⟨rfl, by decide,
    (claim_C5_abandoned_cart_windows [] 403200000 custC5 ⟨2, 50, 70, 399600000⟩ [] rfl).2
      (by decide) ReminderType.oneHour (by decide) (by decide),
    (claim_C5_abandoned_cart_windows [orderC5] 403200000 custC5 ⟨2, 50, 70, 399600000⟩ []
      rfl).1 (by decide)⟩

/-! ### Claims about the wishlist price-drop sweep -/

/-- Evaluation of one price-drop step once snapshot, customer, product
and variant are all present: everything reduces to the price test. -/
lemma priceDropStep_eq (catalog : List OnlineProduct) (item : WishlistItem)
    (pd : ProductSnapshot) (p : OnlineProduct) (v : Variant)
    (hpd : item.productData = some pd) (hc : item.hasCustomer = true)
    (hp : catalog.find? (fun q => q.id == item.productId) = some p)
    (hv : p.variants.get? (pd.variantIndex.getD 0) = some v) :
    priceDropStep catalog true item =
      if ltOpt v.variantSellingPrice (storedPriceOf pd) then
        (true, { item with productData := some (pdAfterDrop pd v.variantSellingPrice) })
      else (false, item) := by
  unfold priceDropStep
  simp only [hpd, hc, hp, hv]
  simp

/-- The price written back by `pdAfterDrop` is the live price, through
the JS falsy coalescing of the stored-price read. -/
lemma storedPriceOf_pdAfterDrop (pd : ProductSnapshot) (cur : Int) :
    storedPriceOf (pdAfterDrop pd cur) = some cur := by
  unfold storedPriceOf pdAfterDrop jsOrNum
  by_cases h0 : cur = 0 <;> simp [h0]

/-- C6: with snapshot, customer, live product and variant present and a
definite cached price `s`, the alert fires iff the live price is strictly
below `s`; after a successful send both cached price fields carry the
live price and an immediate second run over the unchanged catalog does
not fire again for this item. -/
theorem claim_C6_price_drop_idempotent (catalog : List OnlineProduct) (item : WishlistItem)
    (pd : ProductSnapshot) (p : OnlineProduct) (v : Variant) (s : Int)
    (hpd : item.productData = some pd) (hc : item.hasCustomer = true)
    (hp : catalog.find? (fun q => q.id == item.productId) = some p)
    (hv : p.variants.get? (pd.variantIndex.getD 0) = some v)
    (hs : storedPriceOf pd = some s) :
    ((priceDropStep catalog true item).1 = true ↔ v.variantSellingPrice < s)
    ∧ ((priceDropStep catalog true item).1 = true →
        (∃ pd2, (priceDropStep catalog true item).2.productData = some pd2
          ∧ pd2.variantSellingPrice = some v.variantSellingPrice
          ∧ pd2.price = some v.variantSellingPrice)
        ∧ (priceDropStep catalog true (priceDropStep catalog true item).2).1 = false) := by
  have hkey := priceDropStep_eq catalog item pd p v hpd hc hp hv
  rw [hs] at hkey
  by_cases hlt : v.variantSellingPrice < s
  · have hfire : priceDropStep catalog true item =
        (true, { item with productData := some (pdAfterDrop pd v.variantSellingPrice) }) := by
      rw [hkey]
      simp [ltOpt, hlt]
    refine ⟨by rw [hfire]; simp [hlt], fun _ => ⟨?_, ?_⟩⟩
    · exact ⟨pdAfterDrop pd v.variantSellingPrice, by rw [hfire], by simp [pdAfterDrop],
        by simp [pdAfterDrop]⟩
    · rw [hfire]
      have hp2 : catalog.find? (fun q => q.id ==
          ({ item with productData := some (pdAfterDrop pd v.variantSellingPrice)
            } : WishlistItem).productId) = some p := by
        simpa using hp
      have hv2 : p.variants.get?
          ((pdAfterDrop pd v.variantSellingPrice).variantIndex.getD 0) = some v := by
        simpa [pdAfterDrop] using hv
      have hkey2 := priceDropStep_eq catalog
        { item with productData := some (pdAfterDrop pd v.variantSellingPrice) }
        (pdAfterDrop pd v.variantSellingPrice) p v rfl hc hp2 hv2
      rw [hkey2, storedPriceOf_pdAfterDrop]
      simp [ltOpt]
  · refine ⟨by rw [hkey]; simp [ltOpt, hlt], fun hT => absurd hT ?_⟩
    rw [hkey]
    simp [ltOpt, hlt]

/-- C6 witness: cached price 100, live price 80 — one alert, snapshot
updated to 80, and the immediate re-run stays silent. -/
theorem claim_C6_witness :
    itemC6.productData = some pdC6 ∧
    storedPriceOf pdC6 = some 100 ∧
    (priceDropStep catalogC6 true itemC6).1 = true ∧
    (∃ pd2, (priceDropStep catalogC6 true itemC6).2.productData = some pd2
      ∧ pd2.variantSellingPrice = some 80 ∧ pd2.price = some 80) ∧
    (priceDropStep catalogC6 true (priceDropStep catalogC6 true itemC6).2).1 = false := by
  have h := claim_C6_price_drop_idempotent catalogC6 itemC6 pdC6 ⟨"p6", [⟨80⟩]⟩ ⟨80⟩ 100
    (by decide) (by decide) (by decide) (by decide) (by decide)
  have hfire : (priceDropStep catalogC6 true itemC6).1 = true := h.1.mpr (by decide)
  exact ⟨by decide, by decide, hfire, (h.2 hfire).1, (h.2 hfire).2⟩

/-! ### Claims about the back-in-stock check -/

/-- Evaluation of one back-in-stock step once snapshot and customer are
present. -/
lemma backInStockStep_eq (V : Nat) (Q : Int) (item : WishlistItem) (pd : ProductSnapshot)
    (hpd : item.productData = some pd) (hc : item.hasCustomer = true) :
    backInStockStep V Q true item =
      if pd.variantIndex.getD 0 ≠ V then (false, item)
      else if pd.variantStockQuantity.getD 0 = 0 ∧ 0 < Q then
        (true, { item with productData := some (pdAfterStock pd Q) })
      else (false, item) := by
  unfold backInStockStep
  simp only [hpd, hc]
  simp

/-- C7: with snapshot and customer present, the alert fires iff the
cached variant index equals the updated one, the cached stock (read with
the `|| 0` default) is exactly zero, and the new quantity is positive;
on firing the cached stock becomes the new quantity; a cached stock of 3
never fires, nor does a mismatched variant index. -/
theorem claim_C7_back_in_stock_transition (V : Nat) (Q : Int) (item : WishlistItem)
    (pd : ProductSnapshot) (hpd : item.productData = some pd) (hc : item.hasCustomer = true) :
    ((backInStockStep V Q true item).1 = true ↔
      (pd.variantIndex.getD 0 = V ∧ pd.variantStockQuantity.getD 0 = 0 ∧ 0 < Q))
    ∧ ((backInStockStep V Q true item).1 = true →
        (backInStockStep V Q true item).2.productData = some (pdAfterStock pd Q))
    ∧ (pd.variantStockQuantity = some 3 → (backInStockStep V Q true item).1 = false)
    ∧ (pd.variantIndex.getD 0 ≠ V → (backInStockStep V Q true item).1 = false) := by
  rw [backInStockStep_eq V Q item pd hpd hc]
  split_ifs with hidx hzq
  · exact ⟨by simp [hidx], by simp, fun _ => rfl, fun _ => rfl⟩
  · have hidx2 : pd.variantIndex.getD 0 = V := not_not.mp hidx
    refine ⟨by simp [hidx2, hzq.1, hzq.2], fun _ => rfl, ?_, fun hne => absurd hne hidx⟩
    intro h3
    exact absurd hzq.1 (by simp [h3])
  · refine ⟨?_, by simp, fun _ => rfl, fun _ => rfl⟩
    simp only [not_and_or] at hzq
    constructor
    · intro hF; simp at hF
    · rintro ⟨h1, h2, h3⟩
      rcases hzq with hs | hq
      · exact absurd h2 hs
      · exact absurd h3 hq

/-- C7 witness: cached stock 0 with matching variant index 1 and new
stock 5 fires and updates the cache; cached stock 3 stays silent; a
mismatched variant index stays silent. -/
theorem claim_C7_witness :
    (backInStockStep 1 5 true itemC7).1 = true ∧
    (backInStockStep 1 5 true itemC7).2.productData = some (pdAfterStock pdC7 5) ∧
    (backInStockStep 1 5 true itemC7b).1 = false ∧
    (backInStockStep 0 5 true itemC7).1 = false := by
  have h := claim_C7_back_in_stock_transition 1 5 itemC7 pdC7 (by decide) (by decide)
  have hb := claim_C7_back_in_stock_transition 1 5 itemC7b pdC7b (by decide) (by decide)
  have hm := claim_C7_back_in_stock_transition 0 5 itemC7 pdC7 (by decide) (by decide)
  have hfire : (backInStockStep 1 5 true itemC7).1 = true := h.1.mpr (by decide)
  exact ⟨hfire, h.2.1 hfire, hb.2.2.1 (by decide), hm.2.2.2 (by decide)⟩

/-- C10: a snapshot with no stock-quantity field is read as stock zero
through the `|| 0` default, so with a matching variant index and a
positive new quantity the alert fires and the snapshot is updated. -/
theorem claim_C10_missing_stock_fires (V : Nat) (Q : Int) (item : WishlistItem)
    (pd : ProductSnapshot) (hpd : item.productData = some pd) (hc : item.hasCustomer = true)
    (hidx : pd.variantIndex.getD 0 = V) (hstock : pd.variantStockQuantity = none)
    (hq : 0 < Q) :
    (backInStockStep V Q true item).1 = true
    ∧ (backInStockStep V Q true item).2.productData = some (pdAfterStock pd Q) := by
  rw [backInStockStep_eq V Q item pd hpd hc]
  rw [if_neg (by simp [hidx]), if_pos (by simp [hstock, hq])]
  exact ⟨rfl, rfl⟩

/-- C10 witness: `pdC10` has no stock field; with matching index 2 and
new stock 7 the alert fires and the cache records 7. -/
theorem claim_C10_witness :
    pdC10.variantStockQuantity = none ∧
    (backInStockStep 2 7 true itemC10).1 = true ∧
    (backInStockStep 2 7 true itemC10).2.productData = some (pdAfterStock pdC10 7) :=
  ⟨by decide,
    (claim_C10_missing_stock_fires 2 7 itemC10 pdC10 (by decide) (by decide) (by decide)
      (by decide) (by decide)).1,
    (claim_C10_missing_stock_fires 2 7 itemC10 pdC10 (by decide) (by decide) (by decide)
      (by decide) (by decide)).2⟩

/-! ### Claim about expense numbering -/

/-- C8: when the current year has no expense yet the generated number is
`EXP-Y-001`; otherwise the numeric suffix of the latest year-Y expense is
incremented and re-padded; the padded sequence part is always at least 3
characters. -/
theorem claim_C8_expense_numbering (expenses : List Expense) (Y : Nat) :
    (latestExpenseFor expenses ("EXP-" ++ toString Y ++ "-") = none →
      generateExpenseNumber expenses Y = "EXP-" ++ toString Y ++ "-" ++ "001")
    ∧ (∀ e n, latestExpenseFor expenses ("EXP-" ++ toString Y ++ "-") = some e →
        parseIntJS ((jsSplit e.expenseNumber '-').getD 2 "") = some n →
        generateExpenseNumber expenses Y = "EXP-" ++ toString Y ++ "-" ++ pad3 (n + 1))
    ∧ (∀ m, 3 ≤ (pad3 m).length) := by
  refine ⟨?_, ?_, ?_⟩
  · intro h
    simp only [generateExpenseNumber, h]
    rfl
  · intro e n h hp
    simp only [generateExpenseNumber, h, hp]
  · intro m
    by_cases hl : (toString m).length < 3
    · have hmk : (String.mk (List.replicate (3 - (toString m).length) '0')).length =
          3 - (toString m).length := by
        show (List.replicate (3 - (toString m).length) '0').length = 3 - (toString m).length
        exact List.length_replicate ..
      simp only [pad3, hl, if_true, String.length_append, hmk]
      omega
    · simp only [pad3, hl, if_false]
      omega

/-- C8 witness: over `expensesC8` the next 2025 number is `EXP-2025-008`
(latest suffix 007 incremented), while 2026 starts over at
`EXP-2026-001`. -/
theorem claim_C8_witness :
    latestExpenseFor expensesC8 "EXP-2025-" = some ⟨"EXP-2025-007", 500⟩ ∧
    generateExpenseNumber expensesC8 2025 = "EXP-2025-008" ∧
    latestExpenseFor expensesC8 "EXP-2026-" = none ∧
    generateExpenseNumber expensesC8 2026 = "EXP-2026-001" := by
  have h := claim_C8_expense_numbering expensesC8 2025
  have h26 := claim_C8_expense_numbering expensesC8 2026
  refine ⟨by decide, ?_, by decide, ?_⟩
  · have hx := h.2.1 ⟨"EXP-2025-007", 500⟩ 7 (by decide) (by decide)
    exact hx.trans (by decide)
  · have hx := h26.1 (by decide)
    exact hx.trans (by decide)
